import Mathlib

/-!
Verification of the session-orchestration logic of the `bsrec` diagnostic
client (`src/main.rs`).  The program is embedded shallowly: the per-message
presenter `on_message`, the `Context` lifecycle (`new`, `start`, `Drop`), and
the `main` control flow (validation, endpoint resolution, bound defaulting,
context construction and teardown) are translated into executable Lean
functions.  External collaborators (the bsread transport, the dispatcher
client, the debug sender) are represented by an `Env` record saying how each
external call would respond, and the side effects of a run are recorded as a
trace of `Event`s together with a final `Outcome`.
-/

namespace Bsrec

/-- Socket disciplines of the underlying transport (`SocketType` in bsread). -/
inductive SocketType
  | SUB
  | PULL
  | PUSH
  | PUB
deriving DecidableEq, Repr

/-- A decoded message.  Its contents are produced and consumed by the external
bsread library; the orchestration code only passes it through, so it is kept
abstract as an opaque payload. -/
structure Message where
  raw : Nat
deriving DecidableEq, Repr

/-- The argument tuple that `on_message` passes to the external
`debug::print_message`: the truncation size and the four print flags. -/
structure PrintCall where
  size : Nat
  print_main_header : Bool
  print_data_header : Bool
  print_meta : Bool
  print_data : Bool
deriving DecidableEq, Repr

/-- `on_message` from `src/main.rs`: computes the four print flags from the
level and forwards the message to the external printer.  We return the call it
makes. -/
def on_message (message : Message) (level : Nat) (size : Nat) :
    Message × PrintCall :=
  (message,
   { size := size
     print_main_header := decide (level > 3)
     print_data_header := decide (level > 3)
     print_meta := decide (level = 2)
     print_data := decide (level ≥ 3) })

/-- Rust's `u64::MAX`. -/
def U64_MAX : Nat := 2 ^ 64 - 1

/-- The sleep duration computed in `Context::start`:
`if tm>0 {tm as u64} else {u64::MAX}` milliseconds. -/
def sleepMillis (tm : Int) : Nat :=
  if 0 < tm then tm.toNat else U64_MAX

/-- Observable side effects of a run, in program order.  Each constructor
records one call into an external collaborator (transport, dispatcher client,
debug sender) or one lifecycle step of the receive session. -/
inductive Event
  | startSender (port : Nat) (socket : SocketType) (intervalMs : Nat)
  | dispatcherRequest (channels : List String)
  | createBsread
  | createReceiver (endpoint : String) (socket : SocketType)
  | fork (numMessages : Option Nat)
  | sleep (ms : Nat)
  | join
  | interrupt
  | printStats
  | stopSenders
deriving DecidableEq, Repr

/-- How the process terminates: `std::process::exit(code)` after printing one
line to stderr, a Rust panic (whose default handler terminates the process
with status 101), or normal return from `main` (status 0). -/
inductive Outcome
  | exited (code : Nat) (message : String)
  | panicked (message : String)
  | completed
deriving DecidableEq, Repr

/-- The process exit status produced by an `Outcome`.  A Rust panic reaching
the top of `main` terminates the process with status 101. -/
def exitStatus : Outcome → Nat
  | Outcome.exited code _ => code
  | Outcome.panicked _ => 101
  | Outcome.completed => 0

/-- The socket discipline `Context::new` gives the debug sender: complementary
to the client discipline (`if socket_type == PULL then PUSH else PUB`). -/
def senderSocket (socket_type : SocketType) : SocketType :=
  if socket_type = SocketType.PULL then SocketType.PUSH else SocketType.PUB

/-- Responses of the external collaborators during one run: the endpoint the
dispatcher would return (or its error), and whether each fallible external
call (`debug::start_sender`, `Bsread::new`, `bsread.receiver`) succeeds. -/
structure Env where
  dispatcherEndpoint : Except String String
  senderStartOk : Bool
  bsreadOk : Bool
  receiverOk : Bool
deriving Repr

/-- Events emitted by `Context::new`, up to the first failing call: when
`debug` it first starts the debug sender on port 10300 with period 100 ms,
then opens bsread and constructs the receiver on the endpoint. -/
def contextNewTrace (endpoint : String) (socket_type : SocketType)
    (debug : Bool) (env : Env) : List Event :=
  let senderTrace : List Event :=
    if debug then [Event.startSender 10300 (senderSocket socket_type) 100]
    else []
  if debug && !env.senderStartOk then senderTrace
  else if !env.bsreadOk then senderTrace ++ [Event.createBsread]
  else senderTrace ++ [Event.createBsread, Event.createReceiver endpoint socket_type]

/-- The panic raised by `Context::new`, if any: each fallible call is wrapped
in `.expect(...)`, so the first failure panics with the corresponding
message. -/
def contextNewFailure (debug : Bool) (env : Env) : Option String :=
  if debug && !env.senderStartOk then some "Failed to start sender"
  else if !env.bsreadOk then some "Failed to open bsread"
  else if !env.receiverOk then some "Failed to create receiver"
  else none

/-- `Context::start`: forks the background receive loop with the message
bound, then sleeps when a time bound is given, then joins when a message
bound is given. -/
def contextStart (num_messages : Option Nat) (time : Option Int) : List Event :=
  [Event.fork num_messages] ++
  (match time with
   | some tm => [Event.sleep (sleepMillis tm)]
   | none => []) ++
  (match num_messages with
   | some _ => [Event.join]
   | none => [])

/-- `impl Drop for Context`: interrupt the receiver, join it, print the
statistics when the level is positive, stop the debug senders when debug mode
was active. -/
def contextDrop (level : Nat) (debug : Bool) : List Event :=
  [Event.interrupt, Event.join] ++
  (if 0 < level then [Event.printStats] else []) ++
  (if debug then [Event.stopSenders] else [])

/-- The one-line validation error printed by `main` (verbatim, including the
source's typo). -/
def validationError : String :=
  "Either URL (-u, --url) or channel names (-c, --channel) must me defined"

/-- The parsed command-line configuration handed to the orchestration logic
(each field is one flag of the CLI surface). -/
structure Config where
  url : Option String
  channels : List String
  pull : Bool
  debug : Bool
  messages : Option Nat
  time : Option Int
  level : Option Nat
  size : Option Nat
deriving DecidableEq, Repr

/-- Endpoint resolution from `main`: an explicit url is used verbatim; else in
debug mode the fixed loopback address; else a dispatcher request for the
channel list, whose failure is fatal.  Returns the emitted events and the
endpoint or the fatal error message. -/
def resolveEndpoint (cfg : Config) (env : Env) :
    List Event × Except String String :=
  match cfg.url with
  | some u => ([], Except.ok u)
  | none =>
    if cfg.debug then ([], Except.ok "tcp://127.0.0.1:10300")
    else
      match env.dispatcherEndpoint with
      | Except.ok ep => ([Event.dispatcherRequest cfg.channels], Except.ok ep)
      | Except.error e =>
        ([Event.dispatcherRequest cfg.channels],
         Except.error ("Error requesting stream to Dispatcher: " ++ e))

/-- The bound defaulting in `main`:
`if messages.is_none() && time.is_none() { messages = Some(1); }`. -/
def defaultBounds (messages : Option Nat) (time : Option Int) : Option Nat :=
  if messages.isNone && time.isNone then some 1 else messages

/-- The whole run of `main` after CLI parsing: validation, endpoint
resolution, bound defaulting, `Context::new`, `Context::start`, and the
`Drop` of the context when `main` returns.  A panic inside `Context::new`
skips the drop, since the context was never constructed. -/
def runMain (cfg : Config) (env : Env) : List Event × Outcome :=
  if !cfg.debug && cfg.url.isNone && cfg.channels.isEmpty then
    ([], Outcome.exited 1 validationError)
  else
    match resolveEndpoint cfg env with
    | (resTrace, Except.error e) => (resTrace, Outcome.exited 1 e)
    | (resTrace, Except.ok endpoint) =>
      let socket_type := if cfg.pull then SocketType.PULL else SocketType.SUB
      let newTrace := contextNewTrace endpoint socket_type cfg.debug env
      match contextNewFailure cfg.debug env with
      | some msg => (resTrace ++ newTrace, Outcome.panicked msg)
      | none =>
        (resTrace ++ newTrace
           ++ contextStart (defaultBounds cfg.messages cfg.time) cfg.time
           ++ contextDrop (cfg.level.getD 3) cfg.debug,
         Outcome.completed)

/-- Whether a trace contains a `startSender` call. -/
def isStartSender : Event → Bool
  | Event.startSender _ _ _ => true
  | _ => false

/-- True when some debug sender was started during the trace. -/
def startsSender (t : List Event) : Bool := t.any isStartSender

/-- Rust's `str::parse::<u64>`: an optional leading plus sign followed by at
least one ASCII digit, rejecting values outside the u64 range. -/
def parse_u64 (s : String) : Option Nat :=
  let ds :=
    match s.data with
    | c :: rest => if c.toNat = 43 then rest else c :: rest
    | [] => []
  if ds.isEmpty then none
  else if ds.all Char.isDigit then
    let v := ds.foldl (fun acc c => acc * 10 + (c.toNat - 48)) 0
    if v < 2 ^ 64 then some v else none
  else none

/-- The handling of the `--level` flag in `main`: absent means `None`; a
present value is parsed as u64 and any parse failure exits with a one-line
message; a successfully parsed value is passed on without any range check. -/
def parseLevelArg (arg : Option String) : Except String (Option Nat) :=
  match arg with
  | none => Except.ok none
  | some text =>
    match parse_u64 text with
    | some n => Except.ok (some n)
    | none => Except.error ("Invalid value of level: " ++ text)

end Bsrec

namespace Bsrec

/-- C5: for every decoded message and truncation size, the presenter's print
flags are: at level 2 metadata only; at level 3 data values only (no headers,
no metadata); at level 4 headers and data values (no metadata); at levels 0
and 1 nothing at all. -/
theorem print_level_table (message : Message) (size : Nat) :
    on_message message 2 size =
      (message, { size := size, print_main_header := false,
                  print_data_header := false, print_meta := true,
                  print_data := false }) ∧
    on_message message 3 size =
      (message, { size := size, print_main_header := false,
                  print_data_header := false, print_meta := false,
                  print_data := true }) ∧
    on_message message 4 size =
      (message, { size := size, print_main_header := true,
                  print_data_header := true, print_meta := false,
                  print_data := true }) ∧
    on_message message 0 size =
      (message, { size := size, print_main_header := false,
                  print_data_header := false, print_meta := false,
                  print_data := false }) ∧
    on_message message 1 size =
      (message, { size := size, print_main_header := false,
                  print_data_header := false, print_meta := false,
                  print_data := false }) := by
  refine ⟨rfl, rfl, rfl, rfl, rfl⟩

/-- C6: when both a message-count bound and a time bound are configured,
`Context::start` forks the loop, then sleeps for the full time bound, and
only afterwards joins on the count bound — the sleep strictly precedes the
join regardless of when the count bound is satisfied. -/
theorem both_bounds_sleep_then_join (m : Nat) (tm : Int) :
    contextStart (some m) (some tm) =
      [Event.fork (some m), Event.sleep (sleepMillis tm), Event.join] := rfl

/-- C8: a non-positive configured time bound makes the foreground thread
sleep for `u64::MAX` milliseconds (the "indefinite" sentinel, awaiting
external termination), while a positive bound `T` sleeps exactly `T`
milliseconds; the sleep event occurs exactly when a time bound is given. -/
theorem time_bound_sleep (tm : Int) (m : Option Nat) :
    (tm ≤ 0 → sleepMillis tm = U64_MAX) ∧
    (0 < tm → sleepMillis tm = tm.toNat) ∧
    Event.sleep (sleepMillis tm) ∈ contextStart m (some tm) ∧
    (∀ ms, Event.sleep ms ∉ contextStart m none) := by
  refine ⟨fun h => ?_, fun h => ?_, ?_, ?_⟩
  · simp [sleepMillis, not_lt.mpr h]
  · simp [sleepMillis, h]
  · cases m <;> simp [contextStart]
  · intro ms
    cases m <;> simp [contextStart]

/-- C8 witness: at the concrete bounds -5 and 250 the sleep durations are the
sentinel and the bound itself. -/
theorem time_bound_sleep_witness :
    sleepMillis (-5) = U64_MAX ∧ sleepMillis 250 = 250 :=
  ⟨(time_bound_sleep (-5) none).1 (by decide),
   (time_bound_sleep 250 none).2.1 (by decide)⟩

/-- C7: with no url, no channels and debug off, `main` prints the one-line
validation error and exits with code 1 before any external call: the trace is
empty, so in particular neither the dispatcher nor the transport is ever
invoked. -/
theorem validation_before_network (cfg : Config) (env : Env)
    (hu : cfg.url = none) (hc : cfg.channels = []) (hd : cfg.debug = false) :
    runMain cfg env = ([], Outcome.exited 1 validationError) ∧
    (∀ chs, Event.dispatcherRequest chs ∉ (runMain cfg env).1) ∧
    (∀ ep st, Event.createReceiver ep st ∉ (runMain cfg env).1) := by
  have h : runMain cfg env = ([], Outcome.exited 1 validationError) := by
    simp [runMain, hu, hc, hd]
  refine ⟨h, ?_, ?_⟩
  · intro chs
    simp [h]
  · intro ep st
    simp [h]

/-- A run configuration with none of url, channels, debug set. -/
def cfgNoTarget : Config :=
  { url := none, channels := [], pull := false, debug := false,
    messages := none, time := none, level := none, size := none }

/-- An environment in which every external call succeeds. -/
def okEnv : Env :=
  { dispatcherEndpoint := Except.ok "tcp://dispatched:9999",
    senderStartOk := true, bsreadOk := true, receiverOk := true }

/-- C7 witness: the concrete no-target invocation exits 1 with an empty
trace. -/
theorem validation_before_network_witness :
    runMain cfgNoTarget okEnv = ([], Outcome.exited 1 validationError) :=
  (validation_before_network cfgNoTarget okEnv rfl rfl rfl).1

/-- A run with an explicit url and the debug flag both set. -/
def cfgUrlAndDebug : Config :=
  { url := some "tcp://somehost:9000", channels := [], pull := false,
    debug := true, messages := none, time := none, level := none, size := none }

/-- C2 counterexample: supplying an explicit `--url` does not suppress the
debug sender — with `--url` and `--debug` both given, the run still starts a
debug sender (in `Context::new`, whenever the debug flag is set). -/
theorem url_and_debug_still_starts_sender :
    cfgUrlAndDebug.url = some "tcp://somehost:9000" ∧
    startsSender (runMain cfgUrlAndDebug okEnv).1 = true := by
  constructor
  · rfl
  · rfl

/-- C2 (amended): the debug sender is started exactly when the debug flag is
set, independently of whether an explicit address was configured — it is a
consequence of `Context` construction, not of endpoint resolution. -/
theorem sender_start_iff_debug (cfg : Config) (env : Env) :
    startsSender (runMain cfg env).1 = cfg.debug := by
  obtain ⟨url, channels, pull, debug, messages, time, level, size⟩ := cfg
  obtain ⟨de, so, bo, ro⟩ := env
  cases debug <;> cases url <;> (try cases channels) <;> cases de <;>
    cases so <;> cases bo <;> cases ro <;> cases messages <;> cases time <;>
    simp [runMain, resolveEndpoint, contextNewTrace, contextNewFailure,
          contextStart, contextDrop, defaultBounds, senderSocket,
          startsSender, isStartSender]

/-- `Context::start` never emits a `stopSenders` call. -/
theorem stopSenders_not_in_start (m : Option Nat) (t : Option Int) :
    Event.stopSenders ∉ contextStart m t := by
  cases m <;> cases t <;> simp [contextStart]

/-- `Context::start` never emits an `interrupt` call. -/
theorem interrupt_not_in_start (m : Option Nat) (t : Option Int) :
    Event.interrupt ∉ contextStart m t := by
  cases m <;> cases t <;> simp [contextStart]

/-- The `fork` events of `Context::start` carry exactly its message bound. -/
theorem fork_in_start (mm m : Option Nat) (t : Option Int) :
    Event.fork mm ∈ contextStart m t ↔ mm = m := by
  cases m <;> cases t <;> simp [contextStart]

/-- The teardown trace never emits a `fork`. -/
theorem fork_not_in_drop (mm : Option Nat) (level : Nat) (debug : Bool) :
    Event.fork mm ∉ contextDrop level debug := by
  by_cases h : 0 < level <;> cases debug <;> simp [contextDrop, h]

/-- Pushing one element onto a list keeps any given suffix a suffix. -/
theorem front_extend_cons {α : Type} (a : α) (l d : List α)
    (h : ∃ t, l = t ++ d) : ∃ t, a :: l = t ++ d := by
  obtain ⟨t, rfl⟩ := h
  exact ⟨a :: t, rfl⟩

/-- Prepending a list keeps any given suffix a suffix. -/
theorem front_extend_append {α : Type} (xs l d : List α)
    (h : ∃ t, l = t ++ d) : ∃ t, xs ++ l = t ++ d := by
  obtain ⟨t, rfl⟩ := h
  exact ⟨xs ++ t, (List.append_assoc xs t d).symm⟩

/-- A run configuration with just an explicit url (all bounds left to their
defaults). -/
def cfgSimpleRun : Config :=
  { url := some "tcp://somehost:9000", channels := [], pull := false,
    debug := false, messages := none, time := none, level := none, size := none }

/-- C9: if neither bound is supplied, the message-count bound is defaulted to
1; a supplied bound never alters the other; hence at least one bound is set
when the receive phase starts, and every `fork` of a run carries exactly the
defaulted message bound. -/
theorem bounds_default (m : Option Nat) (t : Option Int) (cfg : Config)
    (env : Env) :
    (m = none → t = none → defaultBounds m t = some 1) ∧
    (m ≠ none → defaultBounds m t = m) ∧
    (t ≠ none → defaultBounds m t = m) ∧
    (defaultBounds m t ≠ none ∨ t ≠ none) ∧
    (∀ mm, Event.fork mm ∈ (runMain cfg env).1 →
      mm = defaultBounds cfg.messages cfg.time) := by
  refine ⟨?_, ?_, ?_, ?_, ?_⟩
  · intro hm ht
    simp [defaultBounds, hm, ht]
  · intro hm
    cases m <;> simp_all [defaultBounds]
  · intro ht
    cases t <;> simp_all [defaultBounds]
  · cases m <;> cases t <;> simp [defaultBounds]
  · intro mm h
    obtain ⟨url, channels, pull, debug, messages, time, level, size⟩ := cfg
    obtain ⟨de, so, bo, ro⟩ := env
    cases debug <;> cases url <;> (try cases channels) <;> cases de <;>
      cases so <;> cases bo <;> cases ro <;>
      simp_all [runMain, resolveEndpoint, contextNewTrace, contextNewFailure,
                fork_in_start, fork_not_in_drop]

/-- C9 witness: a concrete run with neither bound supplied forks with the
defaulted bound of one message. -/
theorem bounds_default_witness :
    defaultBounds none none = some 1 ∧
    (some 1 : Option Nat) = defaultBounds cfgSimpleRun.messages cfgSimpleRun.time :=
  ⟨(bounds_default none none cfgSimpleRun okEnv).1 rfl rfl,
   (bounds_default none none cfgSimpleRun okEnv).2.2.2.2 (some 1) (by decide)⟩

/-- C1: the controller teardown (`Drop for Context`) is exactly: interrupt,
join, print the statistics iff the print level is positive, stop the debug
sender iff debug mode was active, in that order; and every run that completes
ends with exactly this teardown trace. -/
theorem teardown_sequence (level : Nat) (debug : Bool) (cfg : Config)
    (env : Env) :
    contextDrop level debug =
      [Event.interrupt, Event.join]
        ++ (if 0 < level then [Event.printStats] else [])
        ++ (if debug then [Event.stopSenders] else []) ∧
    (Event.printStats ∈ contextDrop level debug ↔ 0 < level) ∧
    (Event.stopSenders ∈ contextDrop level debug ↔ debug = true) ∧
    ((runMain cfg env).2 = Outcome.completed →
      ∃ t, (runMain cfg env).1 =
        t ++ contextDrop (cfg.level.getD 3) cfg.debug) := by
  refine ⟨rfl, ?_, ?_, ?_⟩
  · by_cases h : 0 < level <;> cases debug <;> simp [contextDrop, h]
  · by_cases h : 0 < level <;> cases debug <;> simp [contextDrop, h]
  · intro h
    obtain ⟨url, channels, pull, debug', messages, time, level', size⟩ := cfg
    obtain ⟨de, so, bo, ro⟩ := env
    cases debug' <;> cases url <;> (try cases channels) <;> cases de <;>
      cases so <;> cases bo <;> cases ro <;>
      simp_all [runMain, resolveEndpoint, contextNewTrace, contextNewFailure] <;>
      repeat
        first
          | exact ⟨_, rfl⟩
          | apply front_extend_cons
          | apply front_extend_append

/-- C1 witness: a concrete completed run ends with its teardown trace. -/
theorem teardown_sequence_witness :
    (runMain cfgSimpleRun okEnv).2 = Outcome.completed ∧
    ∃ t, (runMain cfgSimpleRun okEnv).1 =
      t ++ contextDrop ((cfgSimpleRun.level).getD 3) cfgSimpleRun.debug :=
  ⟨by decide, (teardown_sequence 3 false cfgSimpleRun okEnv).2.2.2 (by decide)⟩

/-- An environment in which constructing the receiver fails (everything else
succeeds). -/
def envRecvFail : Env :=
  { dispatcherEndpoint := Except.ok "tcp://dispatched:9999",
    senderStartOk := true, bsreadOk := true, receiverOk := false }

/-- A debug-mode run with no explicit url. -/
def cfgDebugOnly : Config :=
  { url := none, channels := [], pull := false, debug := true,
    messages := none, time := none, level := none, size := none }

/-- C4 counterexample: in a debug run whose receiver construction fails, the
debug sender was started, the process panics, and `stop_senders` is never
invoked — the unwind does not stop the Debug Source. -/
theorem failed_unwind_leaves_sender_running :
    startsSender (runMain cfgDebugOnly envRecvFail).1 = true ∧
    (runMain cfgDebugOnly envRecvFail).2 =
      Outcome.panicked "Failed to create receiver" ∧
    Event.stopSenders ∉ (runMain cfgDebugOnly envRecvFail).1 := by
  refine ⟨rfl, rfl, by decide⟩

/-- C4 (amended): `stop_senders` is reached only through the `Drop` of a
successfully constructed `Context`: every run that panics (in particular a
debug run whose receiver construction fails after the sender started) ends
without any `stopSenders` call, while a completed run stops the senders
exactly when debug mode was active. -/
theorem stop_senders_only_after_construction (cfg : Config) (env : Env) :
    (∀ msg, (runMain cfg env).2 = Outcome.panicked msg →
      Event.stopSenders ∉ (runMain cfg env).1) ∧
    ((runMain cfg env).2 = Outcome.completed →
      (Event.stopSenders ∈ (runMain cfg env).1 ↔ cfg.debug = true)) := by
  obtain ⟨url, channels, pull, debug, messages, time, level, size⟩ := cfg
  obtain ⟨de, so, bo, ro⟩ := env
  constructor
  · intro msg h
    cases debug <;> cases url <;> (try cases channels) <;> cases de <;>
      cases so <;> cases bo <;> cases ro <;>
      simp_all [runMain, resolveEndpoint, contextNewTrace, contextNewFailure,
                stopSenders_not_in_start, contextDrop, senderSocket]
  · intro h
    cases debug <;> cases url <;> (try cases channels) <;> cases de <;>
      cases so <;> cases bo <;> cases ro <;>
      simp_all [runMain, resolveEndpoint, contextNewTrace, contextNewFailure,
                stopSenders_not_in_start, contextDrop, senderSocket]

/-- C4 witness: the amended theorem applied to the concrete failing debug
run. -/
theorem stop_senders_only_after_construction_witness :
    Event.stopSenders ∉ (runMain cfgDebugOnly envRecvFail).1 :=
  (stop_senders_only_after_construction cfgDebugOnly envRecvFail).1
    "Failed to create receiver" (by decide)

/-- Whether the configuration passes `main`'s validation check (debug mode,
or an explicit url, or at least one channel). -/
def passesValidation (cfg : Config) : Bool :=
  cfg.debug || cfg.url.isSome || !cfg.channels.isEmpty

/-- Whether an external dispatcher response is a success. -/
def exceptOk (e : Except String String) : Bool :=
  match e with
  | Except.ok _ => true
  | Except.error _ => false

/-- Whether endpoint resolution succeeds: an explicit url and the debug
loopback always resolve; otherwise the dispatcher must answer. -/
def resolutionOk (cfg : Config) (env : Env) : Bool :=
  cfg.url.isSome || cfg.debug || exceptOk env.dispatcherEndpoint

/-- C3 counterexample: when receiver construction fails, the run does not
exit with code 1 — it panics, terminating the process with Rust's panic
status 101. -/
theorem receiver_failure_is_panic_not_exit1 :
    (runMain cfgSimpleRun envRecvFail).2 =
      Outcome.panicked "Failed to create receiver" ∧
    exitStatus (runMain cfgSimpleRun envRecvFail).2 = 101 ∧
    exitStatus (runMain cfgSimpleRun envRecvFail).2 ≠ 1 := by
  refine ⟨rfl, rfl, by decide⟩

/-- C3 (amended): a validation failure or a dispatcher-resolution failure
exits with code 1, but a receiver-construction failure panics (terminating
with Rust's panic status 101, not 1); a run that completes without a fatal
error exits with status 0. -/
theorem exit_codes (cfg : Config) (env : Env) :
    (passesValidation cfg = false →
      runMain cfg env = ([], Outcome.exited 1 validationError)) ∧
    (passesValidation cfg = true → resolutionOk cfg env = false →
      exitStatus (runMain cfg env).2 = 1) ∧
    (passesValidation cfg = true → resolutionOk cfg env = true →
      (cfg.debug = true → env.senderStartOk = true) → env.bsreadOk = true →
      env.receiverOk = false →
      (runMain cfg env).2 = Outcome.panicked "Failed to create receiver" ∧
      exitStatus (runMain cfg env).2 = 101) ∧
    (passesValidation cfg = true → resolutionOk cfg env = true →
      (cfg.debug = true → env.senderStartOk = true) → env.bsreadOk = true →
      env.receiverOk = true →
      (runMain cfg env).2 = Outcome.completed ∧
      exitStatus (runMain cfg env).2 = 0) := by
  obtain ⟨url, channels, pull, debug, messages, time, level, size⟩ := cfg
  obtain ⟨de, so, bo, ro⟩ := env
  cases debug <;> cases url <;> (try cases channels) <;> cases de <;>
    cases so <;> cases bo <;> cases ro <;>
    simp_all [runMain, resolveEndpoint, contextNewTrace, contextNewFailure,
              passesValidation, resolutionOk, exceptOk, exitStatus]

/-- C3 witness: the amended exit-code behaviour at concrete runs — a
no-target invocation exits 1, and a successful url run completes with
status 0. -/
theorem exit_codes_witness :
    runMain cfgNoTarget okEnv = ([], Outcome.exited 1 validationError) ∧
    ((runMain cfgSimpleRun okEnv).2 = Outcome.completed ∧
      exitStatus (runMain cfgSimpleRun okEnv).2 = 0) :=
  ⟨(exit_codes cfgNoTarget okEnv).1 (by decide),
   (exit_codes cfgSimpleRun okEnv).2.2.2 (by decide) (by decide)
     (fun h => by simp [cfgSimpleRun] at h) (by decide) (by decide)⟩

/-- C10: every string parsed as a u64 is accepted as the print level with no
further range check (in particular any level above 4); every level of at
least 4 produces exactly the level-4 flags (both headers and data on,
metadata off); levels 0 and 1 produce identical all-off flags. -/
theorem level_unchecked_and_saturating (s : String) (n : Nat)
    (message : Message) (size : Nat) :
    (parse_u64 s = some n → parseLevelArg (some s) = Except.ok (some n)) ∧
    (4 ≤ n → n < 2 ^ 64 → on_message message n size = on_message message 4 size) ∧
    on_message message 0 size = on_message message 1 size ∧
    (on_message message 0 size).2 =
      { size := size, print_main_header := false, print_data_header := false,
        print_meta := false, print_data := false } := by
  refine ⟨fun h => ?_, fun h4 hlt => ?_, rfl, rfl⟩
  · simp [parseLevelArg, h]
  · have h1 : (3 < n) = True := eq_true (by omega)
    have h2 : (n = 2) = False := eq_false (by omega)
    have h3 : (n ≥ 3) = True := eq_true (by omega)
    simp [on_message, h1, h2, h3]

/-- C10 witness: the concrete level 17 is parsed, accepted without a range
check, and prints with exactly the level-4 flags. -/
theorem level_unchecked_and_saturating_witness :
    parse_u64 "17" = some 17 ∧
    parseLevelArg (some "17") = Except.ok (some 17) ∧
    on_message ⟨0⟩ 17 5 = on_message ⟨0⟩ 4 5 :=
  ⟨by decide,
   (level_unchecked_and_saturating "17" 17 ⟨0⟩ 5).1 (by decide),
   (level_unchecked_and_saturating "17" 17 ⟨0⟩ 5).2.1 (by decide) (by decide)⟩

end Bsrec
